import Mathlib

/-!
# Verification of the Leaflet map plugin (`leafletMapPlugin.ts`)

Shallow embedding of the plugin's build-time pipeline (schema validation,
marker extraction, map-definition parsing, document transform) and of the
client-side runtime (dataset check, coordinate parsing, measure tool state
machine).

Modelling conventions:
* JavaScript values that flow through the plugin are modelled by `JVal`.
  Numbers are modelled exactly: a JS double is either NaN or a finite value,
  modelled as `JNum.nan` or `JNum.fin (q : ℚ)`; the infinities never arise in
  the claims and are not modelled.
* JS objects are association lists; property access on a missing key yields
  `JVal.undefined`, exactly as in JS.
* `RegExp.test` for the plugin's (unanchored) patterns is modelled as the
  existence of a match starting at some position of the string.
-/

/-- A JS number: NaN or a finite value (modelled exactly as a rational). -/
inductive JNum where
  | nan : JNum
  | fin (q : ℚ) : JNum
deriving DecidableEq, Repr

/-- JS values reachable by the plugin's data paths. -/
inductive JVal where
  | str (s : String) : JVal
  | num (n : JNum) : JVal
  | bool (b : Bool) : JVal
  | null : JVal
  | undefined : JVal
  | arr (xs : List JVal) : JVal
  | obj (fields : List (String × JVal)) : JVal

/-- Property access `value[key]` on an object: first binding of the key,
`undefined` when the key is missing (or on a non-object). -/
def jsGet (v : JVal) (key : String) : JVal :=
  match v with
  | .obj fields =>
    match fields.find? (fun kv => kv.1 = key) with
    | some kv => kv.2
    | none => .undefined
  | _ => .undefined

/-- `value === undefined`. -/
def isUndef : JVal → Bool
  | .undefined => true
  | _ => false

/-- `Object.keys` (for objects: the property names; for arrays: the index
strings, whose exact text is irrelevant here beyond their count). -/
def jsKeys : JVal → List String
  | .obj fields => fields.map (fun kv => kv.1)
  | .arr xs => (List.range xs.length).map (fun i => toString i)
  | _ => []

/-- JS truthiness of a value. -/
def jsTruthy : JVal → Bool
  | .str s => !s.isEmpty
  | .num .nan => false
  | .num (.fin q) => q != 0
  | .bool b => b
  | .null => false
  | .undefined => false
  | .arr _ => true
  | .obj _ => true

/-- `typeof value` (NaN is of type `"number"`, arrays and `null` are
`"object"`). -/
def jsTypeof : JVal → String
  | .str _ => "string"
  | .num _ => "number"
  | .bool _ => "boolean"
  | .null => "object"
  | .undefined => "undefined"
  | .arr _ => "object"
  | .obj _ => "object"

/-!
## UTIL.TS
-/

/-- `isNonEmptyObject`: `if (!value || typeof value !== "object") return false;
return Object.keys(value).length > 0;` -/
def isNonEmptyObject (value : JVal) : Bool :=
  if !jsTruthy value || jsTypeof value != "object" then false
  else decide ((jsKeys value).length > 0)

/-!
## Regular expression tests

Each plugin regex is unanchored (except for the `$` of the colour pattern), so
`test` succeeds iff a match exists starting at some suffix of the input.
-/

/-- Characters matched by `\s` (the whitespace class relevant to the inputs). -/
def isWs (c : Char) : Bool :=
  c = ' ' || c = '\t' || c = '\n' || c = '\r' || c = '\x0c' || c = '\x0b'

def isDigitChar (c : Char) : Bool := '0' ≤ c && c ≤ '9'

/-- Match the pattern `[0-9]+\s*,\s*[0-9]+` at the start of `cs` (a prefix of
`cs` suffices: the regex is unanchored on the right). -/
def coordMatchHere (cs : List Char) : Bool :=
  let ds := cs.takeWhile isDigitChar
  let rest := cs.dropWhile isDigitChar
  if ds.isEmpty then false
  else
    match rest.dropWhile isWs with
    | ',' :: rest2 =>
      let rest3 := rest2.dropWhile isWs
      !(rest3.takeWhile isDigitChar).isEmpty
    | _ => false

/-- The list of suffixes of a list (including itself and `[]`). -/
def suffixes : List Char → List (List Char)
  | [] => [[]]
  | c :: cs => (c :: cs) :: suffixes cs

/-- `C.regExp.coordinatesValidation.test s` for `/[0-9]+\s*,\s*[0-9]+/`:
a match may start anywhere in the string. -/
def coordTest (s : String) : Bool :=
  (suffixes s.toList).any coordMatchHere

/-- Hexadecimal digit, case-insensitive (the regex carries the `i` flag). -/
def isHexChar (c : Char) : Bool :=
  isDigitChar c || ('a' ≤ c && c ≤ 'f') || ('A' ≤ c && c ≤ 'F')

/-- `C.regExp.hexColourValidation.test s` for `/([0-9A-F]{3}){1,2}$/i`:
some suffix of the string consists of exactly 3 or exactly 6 hex digits
(the pattern is anchored only at the end). -/
def hexColourTest (s : String) : Bool :=
  (suffixes s.toList).any fun cs =>
    (cs.length = 3 || cs.length = 6) && cs.all isHexChar

def isLowerChar (c : Char) : Bool := 'a' ≤ c && c ≤ 'z'

/-- `C.regExp.iconValidation.test s` for `/([a-z]+:)?[a-z]+([\-][a-z]+)*/`:
both groups around the mandatory `[a-z]+` core are optional, so a match
exists iff some character of the string is a lowercase letter. -/
def iconTest (s : String) : Bool :=
  s.toList.any isLowerChar

/-!
## VALIDATORS.TS
-/

/-- `stringValidator`: `typeof value === "string"`. -/
def stringValidator (value : JVal) : Bool :=
  jsTypeof value = "string"

/-- Whether `value?.toString()` is a non-empty string.  Nullish values give
`undefined` (falsy); a number's decimal rendering is never empty; `true` /
`false` and `"[object Object]"` are non-empty; an array stringifies to the
comma-join of its elements (nullish elements render as the empty string), so
it is empty only for `[]` or a singleton whose element itself renders empty. -/
def toStringTruthy : JVal → Bool
  | .str s => !s.isEmpty
  | .num _ => true
  | .bool _ => true
  | .null => false
  | .undefined => false
  | .obj _ => true
  | .arr [] => false
  | .arr [x] =>
    match x with
    | .null => false
    | .undefined => false
    | x => toStringTruthy x
  | .arr (_ :: _ :: _) => true

/-- `sourcevalidator`: `const preparedValue = typeof value === "string" ?
value : value?.toString(); return !!preparedValue;` -/
def sourcevalidator (value : JVal) : Bool :=
  toStringTruthy value

/-- `numberValidator`: `Number.isFinite(value)` — a number that is not NaN
(infinities are outside the model). -/
def numberValidator (value : JVal) : Bool :=
  match value with
  | .num (.fin _) => true
  | _ => false

/-- `positiveNumberValidator`: finite and `> 0`. -/
def positiveNumberValidator (value : JVal) : Bool :=
  match value with
  | .num (.fin q) => q > 0
  | _ => false

/-- `coordinatesValidator`: a string passing the coordinates regex test. -/
def coordinatesValidator (value : JVal) : Bool :=
  match value with
  | .str s => coordTest s
  | _ => false

/-- `iconValidator`: a string passing the icon regex test. -/
def iconValidator (value : JVal) : Bool :=
  match value with
  | .str s => iconTest s
  | _ => false

/-- `colourValidator`: a string passing the hex-colour regex test. -/
def colourValidator (value : JVal) : Bool :=
  match value with
  | .str s => hexColourTest s
  | _ => false

/-!
## SCHEMAS.TS
-/

/-- One schema entry: `{ validator, required? }` (`required` defaults to
absent, i.e. `false`). -/
structure FieldRule where
  validator : JVal → Bool
  required : Bool := false

/-- A schema: the ordered field-name/rule pairs of the schema object
(`Object.entries` order = insertion order). -/
abbrev JSchema := List (String × FieldRule)

/-- `markerSchema`. -/
def markerSchema : JSchema :=
  [ ("mapName", { validator := stringValidator }),
    ("coordinates", { validator := coordinatesValidator, required := true }),
    ("icon", { validator := iconValidator }),
    ("colour", { validator := colourValidator }),
    ("minZoom", { validator := numberValidator }) ]

/-- `mapSchema`. -/
def mapSchema : JSchema :=
  [ ("name", { validator := stringValidator }),
    ("image", { validator := sourcevalidator, required := true }),
    ("height", { validator := numberValidator }),
    ("minZoom", { validator := numberValidator }),
    ("maxZoom", { validator := numberValidator }),
    ("defaultZoom", { validator := numberValidator }),
    ("zoomDelta", { validator := positiveNumberValidator }),
    ("scale", { validator := numberValidator }),
    ("unit", { validator := stringValidator }) ]

/-- `schemaValidatorFactory(schema)(value)`:
`if (!isNonEmptyObject(value)) return false;
 return Object.entries(schema).map(([key, validate]) =>
   (value[key] === undefined && !validate.required) ||
   validate.validator(value[key])).every(Boolean);` -/
def schemaValidator (schema : JSchema) (value : JVal) : Bool :=
  if !isNonEmptyObject value then false
  else
    (schema.map fun kv =>
      (isUndef (jsGet value kv.1) && !kv.2.required)
        || kv.2.validator (jsGet value kv.1)).all id

/-- `SchemaValidator.marker`. -/
def validateMarker (value : JVal) : Bool := schemaValidator markerSchema value

/-- `SchemaValidator.map`. -/
def validateMap (value : JVal) : Bool := schemaValidator mapSchema value


/-!
## Number parsing (JS built-ins used by the plugin)
-/

/-- Value of a digit string read in base 10. -/
def digitsVal (ds : List Char) : ℕ :=
  ds.foldl (fun acc c => 10 * acc + (c.toNat - '0'.toNat)) 0

/-- JS `parseFloat`: skip leading whitespace, read an optional sign and the
longest decimal-literal prefix (`digits [. digits] [e [sign] digits]`); NaN
when no digit was read.  (The `Infinity` literal never arises here.) -/
def parseFloatChars (cs0 : List Char) : JNum :=
  let cs1 := cs0.dropWhile isWs
  let sgn : ℚ := match cs1 with | '-' :: _ => -1 | _ => 1
  let cs2 := match cs1 with | '-' :: r => r | '+' :: r => r | _ => cs1
  let ip := cs2.takeWhile isDigitChar
  let cs3 := cs2.dropWhile isDigitChar
  let fp := match cs3 with | '.' :: r => r.takeWhile isDigitChar | _ => []
  let cs4 := match cs3 with | '.' :: r => r.dropWhile isDigitChar | _ => cs3
  if ip.isEmpty && fp.isEmpty then .nan
  else
    let mant : ℚ := (digitsVal ip : ℚ) + (digitsVal fp : ℚ) / (10 : ℚ) ^ fp.length
    let e : ℤ :=
      match cs4 with
      | 'e' :: r | 'E' :: r =>
        let esgn : ℤ := match r with | '-' :: _ => -1 | _ => 1
        let r2 := match r with | '-' :: r2 => r2 | '+' :: r2 => r2 | _ => r
        let eds := r2.takeWhile isDigitChar
        if eds.isEmpty then 0 else esgn * (digitsVal eds : ℤ)
      | _ => 0
    .fin (sgn * mant * (10 : ℚ) ^ e)

/-- JS `parseInt` with no radix argument, on the decimal strings arising here:
skip leading whitespace, read an optional sign and the longest digit prefix;
NaN when no digit was read.  (The hexadecimal `0x` branch of `parseInt` is
never exercised by the plugin's inputs and is not modelled.) -/
def parseIntChars (cs0 : List Char) : JNum :=
  let cs1 := cs0.dropWhile isWs
  let sgn : ℚ := match cs1 with | '-' :: _ => -1 | _ => 1
  let cs2 := match cs1 with | '-' :: r => r | '+' :: r => r | _ => cs1
  let ds := cs2.takeWhile isDigitChar
  if ds.isEmpty then .nan else .fin (sgn * (digitsVal ds : ℚ))

/-- `s.replace(/\s/g, "")`. -/
def stripWs (s : String) : String :=
  ⟨s.toList.filter (fun c => !isWs c)⟩

/-- JS `String.split` with the one-character separator used here
(`"".split(",")` is `[""]`). -/
def splitOnChar (sep : Char) : List Char → List (List Char)
  | [] => [[]]
  | c :: cs =>
    if c = sep then [] :: splitOnChar sep cs
    else
      match splitOnChar sep cs with
      | [] => [[c]]
      | p :: ps => (c :: p) :: ps

/-- Client-side `parseCoordinates`:
`const coordinates = coordinatesString.replace(/\s/g, "").split(",").map((c)
=> parseInt(c)); if (coordinates.length !== 2) throw new Error("Coordinates
not properly validated"); return coordinates;` -/
def parseCoordinates (s : String) : Except String (List JNum) :=
  let coordinates := (splitOnChar ',' (stripWs s).toList).map parseIntChars
  if coordinates.length ≠ 2 then .error "Coordinates not properly validated"
  else .ok coordinates

/-!
## MARKER.TS — extraction into the process-wide registry
-/

/-- `Object.values`. -/
def jsValues : JVal → List JVal
  | .obj fields => fields.map (fun kv => kv.2)
  | .arr xs => xs
  | _ => []

/-- `isProperEntry`: a non-empty record all of whose property values are
strings or numbers. -/
def isProperEntry (entry : JVal) : Bool :=
  if !isNonEmptyObject entry then false
  else (jsValues entry).all fun p => jsTypeof p = "string" || jsTypeof p = "number"

/-- A validated marker plus the owning document's title (`name`) and slug
(`link`) — `MarkerEntry` in the source. -/
structure MarkerEntry where
  mapName : Option String := none
  coordinates : String
  icon : Option String := none
  colour : Option String := none
  minZoom : Option ℚ := none
  name : String
  link : String
deriving DecidableEq, Repr

/-- Read an optional string-valued field of a schema-validated record. -/
def optStrField (entry : JVal) (k : String) : Option String :=
  match jsGet entry k with | .str s => some s | _ => none

/-- Read an optional (finite) number-valued field of a schema-validated
record. -/
def optNumField (entry : JVal) (k : String) : Option ℚ :=
  match jsGet entry k with | .num (.fin q) => some q | _ => none

/-- `parseMarkerFromEntry(entry, name, link)`: reject entries that are not
flat string/number records, reject entries failing the marker schema, and
otherwise spread the entry and attach the document's title and slug.  (The JS
spread also copies fields outside the schema; they are never read afterwards
and are dropped from the model.  After validation `coordinates` is a string
and the optional fields are absent, strings, or finite numbers as typed
below.) -/
def parseMarkerFromEntry (entry : JVal) (name link : String) : Option MarkerEntry :=
  if !isProperEntry entry then none
  else if !validateMarker entry then none
  else some
    { mapName := optStrField entry "mapName"
      coordinates := match jsGet entry "coordinates" with | .str s => s | _ => ""
      icon := optStrField entry "icon"
      colour := optStrField entry "colour"
      minZoom := optNumField entry "minZoom"
      name := name
      link := link }

/-- The process-wide `LEAFLET_MAP_PLUGIN_DATA.markerMap`, modelled as the
total bucket map; a key that was never pushed to holds `[]`, matching the
source's `markerMap[key] ?? []` reads and its create-bucket-on-first-push
updates. -/
def Registry := String → List MarkerEntry

def emptyRegistry : Registry := fun _ => []

/-- The bucket a marker is pushed to: `marker.mapName` when truthy (present
and non-empty), the shared `"notDefinedMap"` bucket otherwise. -/
def markerKey (m : MarkerEntry) : String :=
  match m.mapName with
  | some s => if s.isEmpty then "notDefinedMap" else s
  | none => "notDefinedMap"

/-- One `forEach` step of `buildMarkerData`: push the marker onto its bucket. -/
def insertMarker (reg : Registry) (m : MarkerEntry) : Registry :=
  fun k => if k = markerKey m then reg k ++ [m] else reg k

/-- The registry reached by inserting a list of marker records in order. -/
def registryOfEntries (ms : List MarkerEntry) : Registry :=
  ms.foldl insertMarker emptyRegistry

/-- `buildMarkerData` for one document: parse each declared entry, drop the
invalid ones silently, and push the rest into the registry in order. -/
def buildMarkerData (reg : Registry) (title slug : String)
    (markerData : List JVal) : Registry :=
  (markerData.filterMap (fun e => parseMarkerFromEntry e title slug)).foldl insertMarker reg

/-!
## MAP.TS — the Map Definition Parser
-/

/-- Strict equality of a plugin value with a string literal
(`view.type !== "leaflet-map"`). -/
def jsIsString (v : JVal) (s : String) : Bool :=
  match v with
  | .str t => t == s
  | _ => false

/-- `parseFloat((view.scale ?? "").toString())`.  An absent (or null) field is
replaced by `""` before stringification, and `parseFloat("")` is NaN; a string
is parsed; a finite number round-trips through its decimal rendering
unchanged, while NaN renders as `"NaN"`, which `parseFloat` cannot read.
Booleans render as `"true"`/`"false"` (unparseable).  Arrays and objects
cannot reach this point — `isProperEntry` has already restricted the view's
property values to strings and numbers — and are approximated by NaN. -/
def coerceScale : JVal → JNum
  | .undefined => parseFloatChars []
  | .null => parseFloatChars []
  | .str s => parseFloatChars s.toList
  | .num (.fin q) => .fin q
  | .num .nan => .nan
  | .bool b => parseFloatChars (if b then "true".toList else "false".toList)
  | .arr _ => .nan
  | .obj _ => .nan

/-- The tail of the per-view body: keep the assembled candidate `object`
only if it passes the map schema. -/
def keepIfValidMap (object : JVal) : Option JVal :=
  if !validateMap object then none else some object

/-- The per-view body of `parseMapFromNode`: reject views that are not flat
string/number records or whose `type` is falsy or differs from
`"leaflet-map"`; otherwise assemble the candidate object — note that its
`name` property is taken from the view's `mapName` property, and that `scale`
is coerced with `parseFloat` before validation — and keep it only if it
passes the map schema. -/
def viewCandidate (view : JVal) : Option JVal :=
  if !isProperEntry view then none
  else if !jsTruthy (jsGet view "type") || !jsIsString (jsGet view "type") "leaflet-map" then
    none
  else
    keepIfValidMap (.obj
      [ ("name", jsGet view "mapName"),
        ("image", jsGet view "image"),
        ("height", jsGet view "height"),
        ("minZoom", jsGet view "minZoom"),
        ("maxZoom", jsGet view "maxZoom"),
        ("defaultZoom", jsGet view "defaultZoom"),
        ("zoomDelta", jsGet view "zoomDelta"),
        ("scale", .num (coerceScale (jsGet view "scale"))),
        ("unit", jsGet view "unit") ])

/-- `parseMapFromNode` on a successfully deserialized block body: require a
non-empty record with a `views` array, map each view to its candidate, drop
the failures, and take the first remaining candidate
(`entry.views.map(...).filter(isNotNull).at(0)`). -/
def parseMapFromEntry (entry : JVal) : Option JVal :=
  if !isNonEmptyObject entry then none
  else
    match jsGet entry "views" with
    | .arr views => ((views.map viewCandidate).filterMap id).head?
    | _ => none

/-- `parseMapFromNode`: `load(source(node))` deserializes the block body.
A body the deserializer cannot parse makes `load` throw, and no handler in
the plugin catches the exception — modelled by propagating the `Except.error`
branch of the deserializer's outcome. -/
def parseMapFromNode (loaded : Except String JVal) : Except String (Option JVal) :=
  match loaded with
  | .error e => .error e
  | .ok entry => .ok (parseMapFromEntry entry)

/-!
## Document Transform — `buildMapData`, `buildMarkerElement`
-/

/-- A rendered attribute value: the source writes strings and numbers into
the element's properties.  A number serializes to its (never empty) decimal
rendering, so for the dataset checks only the emptiness of string attributes
matters. -/
inductive AttrVal where
  | str (s : String) : AttrVal
  | num (n : JNum) : AttrVal
deriving DecidableEq, Repr

/-- Truthiness of a rendered attribute read back from `element.dataset`
(every dataset value is a string; a serialized number is never empty). -/
def attrTruthy : AttrVal → Bool
  | .str s => !s.isEmpty
  | .num _ => true

/-- The eight data attributes of the emitted `.leaflet-map` container. -/
structure MapDataset where
  src : AttrVal
  height : AttrVal
  minZoom : AttrVal
  maxZoom : AttrVal
  defaultZoom : AttrVal
  zoomDelta : AttrVal
  scale : AttrVal
  unit : AttrVal
deriving DecidableEq, Repr

/-- A `.leaflet-marker` child element's data attributes. -/
structure MarkerEl where
  name : String
  link : String
  coordinates : String
  icon : String
  colour : String
  minZoom : JNum
deriving DecidableEq, Repr

/-- The emitted container: the `.leaflet-map` element's dataset plus its
marker children (the enclosing plain `div` wrapper is presentation only). -/
structure MapContainer where
  dataset : MapDataset
  markers : List MarkerEl
deriving DecidableEq, Repr

/-- JS `String.replace` with a string pattern: replace the first occurrence
only. -/
def replaceFirst (s pat rep : String) : String :=
  match s.splitOn pat with
  | [] => s
  | [_] => s
  | p :: rest => p ++ rep ++ String.intercalate pat rest

/-- `Math.max` (NaN propagates). -/
def jMax : JNum → JNum → JNum
  | .nan, _ => .nan
  | _, .nan => .nan
  | .fin a, .fin b => .fin (max a b)

/-- `Math.min` (NaN propagates). -/
def jMin : JNum → JNum → JNum
  | .nan, _ => .nan
  | _, .nan => .nan
  | .fin a, .fin b => .fin (min a b)

/-- `clamp(value, min, max) = Math.min(Math.max(value, min), max)`. -/
def clamp (value mn mx : JNum) : JNum :=
  jMin (jMax value mn) mx

/-- `mapData.k ?? d` for the numeric fields of a schema-validated map
declaration: the field is absent (or null, which `??` also replaces) or a
number; any other shape is unreachable after validation and approximated by
NaN. -/
def numFieldOr (m : JVal) (k : String) (d : JNum) : JNum :=
  match jsGet m k with
  | .undefined => d
  | .null => d
  | .num n => n
  | _ => .nan

/-- `mapData.unit ?? ""` of a schema-validated map declaration (absent or a
string after validation). -/
def unitFieldOr (m : JVal) : String :=
  match jsGet m "unit" with
  | .str s => s
  | _ => ""

/-- `marker.icon ?? "circle-small"` then `.replace("lucide-", "")`, and
`marker.colour ?? "#21409a"`, `marker.minZoom ?? mapMinZoom`:
`buildMarkerElement(marker, currentSlug, mapMinZoom)`.  `resolveLink` stands
for the external `resolveRelative(currentSlug, marker.link)` collaborator. -/
def buildMarkerElement (resolveLink : String → String) (mapMinZoom : JNum)
    (marker : MarkerEntry) : MarkerEl :=
  { name := marker.name
    link := resolveLink marker.link
    coordinates := marker.coordinates
    icon := replaceFirst (marker.icon.getD "circle-small") "lucide-" ""
    colour := marker.colour.getD "#21409a"
    minZoom := match marker.minZoom with | some q => .fin q | none => mapMinZoom }

/-- The declaration's `name` property as an optional string (absent or a
string after validation). -/
def declName (m : JVal) : Option String :=
  match jsGet m "name" with
  | .str s => some s
  | _ => none

/-- The marker list of `buildMapData`:
`[...(markerMap["notDefinedMap"] ?? []), ...(mapData.name ? markerMap[mapData.name] ?? [] : [])]`
— the shared bucket, followed by the bucket of the declaration's name when
that name is truthy. -/
def markersFor (reg : Registry) (name : Option String) : List MarkerEntry :=
  reg "notDefinedMap" ++
    (match name with
     | some s => if s.isEmpty then [] else reg s
     | none => [])

/-- `buildMapData` on a validated map declaration `m`: resolve the image via
the external `transformLink` collaborator (`resolve`), compute the effective
zoom parameters, read the marker buckets, and emit the container.
`resolveLink` is the `resolveRelative` collaborator used for the marker
children. -/
def buildMapData (resolve : String → String) (resolveLink : String → String)
    (reg : Registry) (m : JVal) : MapContainer :=
  let minZoom := numFieldOr m "minZoom" (.fin 0)
  let maxZoom := jMax (numFieldOr m "maxZoom" (.fin 2)) minZoom
  let markers := markersFor reg (declName m)
  { dataset :=
      { src := .str (resolve (match jsGet m "image" with | .str s => s | _ => ""))
        height := .num (numFieldOr m "height" (.fin 600))
        minZoom := .num minZoom
        maxZoom := .num maxZoom
        defaultZoom := .num (clamp (numFieldOr m "defaultZoom" minZoom) minZoom maxZoom)
        zoomDelta := .num (numFieldOr m "zoomDelta" (.fin (1/2)))
        scale := .num (numFieldOr m "scale" (.fin 1))
        unit := .str (unitFieldOr m) }
    markers := markers.map (buildMarkerElement resolveLink minZoom) }

/-- `transformMapElement` on one fenced block tagged `base`: parse the block
(`load` may throw, propagated as `.error`), and replace the node by the
rendered container when a map was found (`.ok (some _)`); `.ok none` leaves
the block node unchanged. -/
def transformMapBlock (resolve resolveLink : String → String) (reg : Registry)
    (loaded : Except String JVal) : Except String (Option MapContainer) :=
  match parseMapFromNode loaded with
  | .error e => .error e
  | .ok none => .ok none
  | .ok (some m) => .ok (some (buildMapData resolve resolveLink reg m))

/-!
## Client Map Controller — initialization gate
-/

/-- Client-side `isMapDataSet(dataset)`: requires a non-empty all-string
record (a DOM dataset always is) with all eight attributes truthy, i.e.
non-empty as strings. -/
def isMapDataSet (d : MapDataset) : Bool :=
  attrTruthy d.src && attrTruthy d.height && attrTruthy d.minZoom &&
    attrTruthy d.maxZoom && attrTruthy d.defaultZoom && attrTruthy d.zoomDelta &&
    attrTruthy d.scale && attrTruthy d.unit

/-- `initialiseMap` reaches its one suspension point — the
`getImageMeta(dataset.src)` image-dimension fetch — iff the dataset passes
`isMapDataSet`; otherwise it returns before fetching. -/
def initProceedsToFetch (d : MapDataset) : Bool :=
  isMapDataSet d

/-!
## Client Map Controller — the measure tool state machine

Map points and the scale are modelled exactly; the Euclidean segment length
(`Math.sqrt`) and the cumulative distance live in `ℝ`.
-/

/-- A planar map point (`latlng`). -/
structure LatLng where
  lat : ℚ
  lng : ℚ
deriving DecidableEq, Repr

/-- `distance(e, n) = Math.sqrt(sq(e.lat - n.lat) + sq(e.lng - n.lng))`. -/
noncomputable def jsDistance (e n : LatLng) : ℝ :=
  Real.sqrt (((e.lat - n.lat) ^ 2 + (e.lng - n.lng) ^ 2 : ℚ) : ℝ)

/-- JS `t.toFixed(1)` on the non-negative distances arising here: round to
one decimal and render as `<integer part>.<tenths digit>`. -/
noncomputable def toFixed1 (x : ℝ) : String :=
  let n : ℤ := ⌊x * 10 + 1 / 2⌋
  toString (n / 10) ++ "." ++ toString (n % 10)

/-- `getContent(t)`: the distance to one decimal, a space, then the unit
(`options.unit`, itself defaulted to `""` upstream). -/
noncomputable def getContent (unit : String) (t : ℝ) : String :=
  toFixed1 t ++ " " ++ unit

/-- `MeasureState`. -/
inductive MeasureState where
  | Ready : MeasureState
  | Measuring : MeasureState
  | Finishing : MeasureState
  | Done : MeasureState
deriving DecidableEq, Repr

/-- The measure tool's resolved settings: `parseFloat(options.scale)` and
`options.unit` of the (validated) container dataset. -/
structure MeasureOptions where
  scale : ℚ
  unit : String

/-- The measure tool's mutable state: the FSM state, the committed vertices
(`pathItems`), the cumulative distance, the rendered committed polyline
(`pathLine`), and the content of the permanent total tooltip bound to the
last vertex once `Done` (absent in other states). -/
structure MeasureSession where
  state : MeasureState
  pathItems : List LatLng
  distance : ℝ
  pathLine : List LatLng
  permanentTooltip : Option String

/-- The state the tool is constructed in. -/
noncomputable def initialSession : MeasureSession :=
  { state := .Ready, pathItems := [], distance := 0, pathLine := [],
    permanentTooltip := none }

/-- `resetPath`: clear the vertices and the distance, clear the rendered
polylines and the point layer (which also discards the permanent tooltip
bound to the last vertex), and remove the preview tooltip. -/
noncomputable def resetPath (s : MeasureSession) : MeasureSession :=
  { s with pathItems := [], distance := 0, pathLine := [],
           permanentTooltip := none }

/-- `renderPath`: redraw the committed polyline from `pathItems`, make the
last vertex (`pathItems.at(-1)`) the finish hit-target, and — when a previous
vertex `pathItems.at(-2)` exists — add the scaled length of the new last
segment to the cumulative distance. -/
noncomputable def renderPath (scale : ℚ) (s : MeasureSession) : MeasureSession :=
  { s with
    pathLine := s.pathItems
    distance :=
      match s.pathItems.reverse with
      | t :: o :: _ => s.distance + jsDistance t o * (scale : ℝ)
      | _ => s.distance }

/-- `mapClicked(event)` of the measure tool:
in `Ready`/`Measuring`, stay/become `Measuring`, append the clicked point and
`renderPath()`; in `Finishing`, become `Done` and bind the permanent total
tooltip to the last vertex; in `Done`, `resetPath()` and return to `Ready`. -/
noncomputable def mapClicked (opts : MeasureOptions) (s : MeasureSession)
    (p : LatLng) : MeasureSession :=
  match s.state with
  | .Ready | .Measuring =>
    renderPath opts.scale
      { s with state := .Measuring, pathItems := s.pathItems ++ [p] }
  | .Finishing =>
    { s with state := .Done
             permanentTooltip := some (getContent opts.unit s.distance) }
  | .Done =>
    { resetPath s with state := .Ready }

/-- The click listener `getCircleMarker` installs on the last vertex's hit
target: it moves the tool to `Finishing`. -/
noncomputable def vertexClicked (s : MeasureSession) : MeasureSession :=
  { s with state := .Finishing }

/-- `onDeselected` — run whenever the measure tool is deactivated (tool
switch or control teardown): restore the cursor, drop the preview listener,
`resetPath()` and return to `Ready`. -/
noncomputable def onDeselected (s : MeasureSession) : MeasureSession :=
  { resetPath s with state := .Ready }

/-!
## Spec-side definitions

These follow the specification's words (not the source); the theorems below
compare them with the source-derived definitions.
-/

/-- The declared value of a numeric field of a validated map declaration,
read as an optional rational. -/
def declaredNum (m : JVal) (k : String) : Option ℚ := optNumField m k

/-- Spec: `effectiveMin = declared minZoom or 0`. -/
def effectiveMin (m : JVal) : ℚ := (declaredNum m "minZoom").getD 0

/-- Spec: `effectiveMax = max(declared maxZoom or 2, effectiveMin)`. -/
def effectiveMax (m : JVal) : ℚ :=
  max ((declaredNum m "maxZoom").getD 2) (effectiveMin m)

/-- Spec: `effectiveDefault = clamp(declared defaultZoom or effectiveMin,
effectiveMin, effectiveMax)`. -/
def effectiveDefault (m : JVal) : ℚ :=
  min (max ((declaredNum m "defaultZoom").getD (effectiveMin m)) (effectiveMin m))
    (effectiveMax m)

/-- The claim's reading of the schema-validator contract (spec §4.1): accept
exactly the non-empty records in which every schema-listed field is present
and satisfying its predicate, or absent and not required. -/
def specSchemaAccepts (schema : JSchema) (value : JVal) : Prop :=
  isNonEmptyObject value = true ∧
    ∀ kr ∈ schema,
      (isUndef (jsGet value kr.1) = false ∧ kr.2.validator (jsGet value kr.1) = true)
      ∨ (isUndef (jsGet value kr.1) = true ∧ kr.2.required = false)

/-!
## Claims
-/

/-- **C1** (code defect, spec is the intent).  The claim's example view
`{type: "leaflet-map", image: "town.png"}`, which omits `scale`, does *not*
pass validation: before the Schema Validator runs, the absent `scale` is
coerced via `parseFloat("")`, which is NaN, and `numberValidator` rejects
NaN, so the parser produces no map at all — the render-time default
`mapData.scale ?? 1` of `buildMapData` is unreachable for absent scales. -/
theorem c1_absent_scale_rejected :
    parseMapFromEntry
      (.obj [("views", .arr [.obj [("type", .str "leaflet-map"),
        ("image", .str "town.png")]])]) = none
    ∧ coerceScale .undefined = .nan
    ∧ numberValidator (.num .nan) = false :=
  ⟨rfl, rfl, rfl⟩

/-- **C8** (code defect, spec is the intent).  The coordinates regex
`/[0-9]+\s*,\s*[0-9]+/` is unanchored, so the validator accepts `"1,2,3"`,
which does not have the shape `<int>,<int>`; on that marker the client-side
coordinate parser takes its "Coordinates not properly validated" error
branch, which the claim says is unreachable. -/
theorem c8_unanchored_coordinates_regex :
    coordinatesValidator (.str "1,2,3") = true
    ∧ parseCoordinates "1,2,3" = .error "Coordinates not properly validated" :=
  ⟨rfl, rfl⟩

/-- **C2 counterexample.**  For a views list `[invalid (missing image),
valid]` the parser *does* find a map — the claim asserts it finds none. -/
theorem c2_counterexample :
    (parseMapFromEntry
      (.obj [("views", .arr
        [ .obj [("type", .str "leaflet-map")],
          .obj [("type", .str "leaflet-map"), ("image", .str "town.png"),
                ("scale", .num (.fin 1))] ])])).isSome = true :=
  rfl

/-- **C3** (code defect, spec is the intent).  A validated declaration
without `unit` — the claim's own default case — yields a container whose
`data-unit` is the default empty string; the client's required-attribute
check tests truthiness, the empty string is falsy, so the dataset is
rejected and initialization aborts *before* the image-dimension fetch. -/
theorem c3_default_unit_fails_dataset_check :
    (parseMapFromEntry
      (.obj [("views", .arr [.obj [("type", .str "leaflet-map"),
        ("image", .str "town.png"), ("scale", .num (.fin 1))]])])).map
      (fun m =>
        ((buildMapData id id emptyRegistry m).dataset.unit,
          initProceedsToFetch (buildMapData id id emptyRegistry m).dataset))
      = some (.str "", false) :=
  rfl

/-- **C4 counterexample.**  A `base` block whose body the deserializer cannot
parse: `load` throws, nothing in the plugin catches, so the exception crosses
the document-transform boundary instead of the block being left unchanged. -/
theorem c4_counterexample :
    transformMapBlock id id emptyRegistry
        (.error "YAMLException: unexpected end of the stream")
      = .error "YAMLException: unexpected end of the stream" :=
  rfl

/-- **C7 counterexample.**  A validated view carrying `name: "Atlas"`: the
resulting declaration's `name` is `undefined` (the parser reads the view's
`mapName` property, not `name`), not `"Atlas"`. -/
theorem c7_counterexample :
    (viewCandidate (.obj [("type", .str "leaflet-map"), ("image", .str "town.png"),
        ("scale", .num (.fin 1)), ("name", .str "Atlas")])).map
        (fun c => jsGet c "name")
      = some .undefined
    ∧ JVal.undefined ≠ JVal.str "Atlas" :=
  ⟨rfl, fun h => nomatch h⟩

/-- **C6 counterexample.**  A marker stored with `mapName: "notDefinedMap"`
lands in the implicit shared bucket and therefore appears in the marker list
of a map named `"other"`, refuting "appears in a map's marker list iff that
map's declaration name is `'X'`". -/
theorem c6_counterexample :
    ¬ (({ mapName := some "notDefinedMap", coordinates := "1,2",
          name := "Doc", link := "doc" } : MarkerEntry)
          ∈ markersFor
              (registryOfEntries
                [{ mapName := some "notDefinedMap", coordinates := "1,2",
                   name := "Doc", link := "doc" }])
              (some "other")
        ↔ some "other" = some "notDefinedMap") := by
  decide

/-- **C9 counterexample.**  For a schema whose (required) field has a
predicate accepting `undefined`, the generated validator accepts a record
missing that field, while the claim's characterisation — "(a) present and
satisfying its predicate, or (b) absent and not required" — rejects it. -/
theorem c9_counterexample :
    schemaValidator [("f", { validator := fun _ => true, required := true })]
        (.obj [("g", .num (.fin 1))]) = true
    ∧ ¬ specSchemaAccepts [("f", { validator := fun _ => true, required := true })]
        (.obj [("g", .num (.fin 1))]) := by
  refine ⟨rfl, fun h => ?_⟩
  have hf := h.2 ("f", { validator := fun _ => true, required := true })
    (List.mem_singleton.mpr rfl)
  simp [jsGet, isUndef] at hf

/-- Helper: the head of `filterMap id` over mapped options is the value at
the first index whose image is `some`. -/
theorem head_filterMap_of_first_some {α β : Type} (f : α → Option β) :
    ∀ (l : List α) (i : ℕ) (hi : i < l.length) (c : β),
      f (l.get ⟨i, hi⟩) = some c →
      (∀ j (hj : j < l.length), j < i → f (l.get ⟨j, hj⟩) = none) →
      ((l.map f).filterMap id).head? = some c := by
  intro l
  induction l with
  | nil => intro i hi; simp at hi
  | cons a t ih =>
    intro i hi c hc hbefore
    cases i with
    | zero =>
      simp at hc
      simp [List.filterMap_cons, hc]
    | succ k =>
      have ha : f a = none := hbefore 0 (by simp) (Nat.succ_pos k)
      simp only [List.map_cons, List.filterMap_cons, ha]
      exact ih k (by simpa using hi) c (by simpa using hc)
        (fun j hj hlt => hbefore (j + 1) (by simpa using hj) (by omega))

/-- **C2 (amended).**  The parser implements *first valid candidate wins*:
if the `i`-th view of the block's views list yields a validated candidate and
every earlier view does not, the parser returns the `i`-th view's candidate —
an invalid first view does not stop the scan.  (In particular, for
`[invalid (missing image), valid]` it finds the valid second view, not no
map.) -/
theorem c2_first_valid_view_wins (entry : JVal) (views : List JVal)
    (hne : isNonEmptyObject entry = true)
    (hviews : jsGet entry "views" = .arr views)
    (i : ℕ) (hi : i < views.length) (c : JVal)
    (hc : viewCandidate (views.get ⟨i, hi⟩) = some c)
    (hbefore : ∀ j (hj : j < views.length), j < i →
      viewCandidate (views.get ⟨j, hj⟩) = none) :
    parseMapFromEntry entry = some c := by
  unfold parseMapFromEntry
  rw [hne, hviews]
  simpa using head_filterMap_of_first_some viewCandidate views i hi c hc hbefore

/-- Witness for `c2_first_valid_view_wins`: the claim's own scenario, with a
valid second view. -/
theorem c2_witness :
    parseMapFromEntry
      (.obj [("views", .arr
        [ .obj [("type", .str "leaflet-map")],
          .obj [("type", .str "leaflet-map"), ("image", .str "town.png"),
                ("scale", .num (.fin 1))] ])])
      = some (.obj
        [ ("name", .undefined), ("image", .str "town.png"), ("height", .undefined),
          ("minZoom", .undefined), ("maxZoom", .undefined),
          ("defaultZoom", .undefined), ("zoomDelta", .undefined),
          ("scale", .num (.fin 1)), ("unit", .undefined) ]) := by
  refine c2_first_valid_view_wins
    (.obj [("views", .arr
      [ .obj [("type", .str "leaflet-map")],
        .obj [("type", .str "leaflet-map"), ("image", .str "town.png"),
              ("scale", .num (.fin 1))] ])])
    [ .obj [("type", .str "leaflet-map")],
      .obj [("type", .str "leaflet-map"), ("image", .str "town.png"),
            ("scale", .num (.fin 1))] ]
    rfl rfl 1 (by decide) _ rfl ?_
  intro j hj hlt
  have hj0 : j = 0 := by omega
  subst hj0
  rfl

/-- **C4 (amended).**  For every `base` block whose body the deserializer
*does* parse, the document transform raises no exception: an invalid or
unrecognised body produces no map and leaves the block node unchanged
(`.ok none`).  A body the deserializer cannot parse, however, makes `load`
throw, and the exception propagates out of the transform uncaught. -/
theorem c4_transform_error_handling (resolve resolveLink : String → String)
    (reg : Registry) (entry : JVal) (e : String) :
    (transformMapBlock resolve resolveLink reg (.ok entry)).isOk = true
    ∧ (parseMapFromEntry entry = none →
        transformMapBlock resolve resolveLink reg (.ok entry) = .ok none)
    ∧ transformMapBlock resolve resolveLink reg (.error e) = .error e := by
  refine ⟨?_, ?_, rfl⟩
  · cases h : parseMapFromEntry entry <;>
      simp [transformMapBlock, parseMapFromNode, h, Except.isOk, Except.toBool]
  · intro h
    simp [transformMapBlock, parseMapFromNode, h]

/-- Witness for `c4_transform_error_handling`: a scalar body (`"hello"`)
parses but is not a map block, so the block is left unchanged; an
unparseable body propagates the deserializer's error. -/
theorem c4_witness :
    transformMapBlock id id emptyRegistry (.ok (.str "hello")) = .ok none
    ∧ transformMapBlock id id emptyRegistry (.error "boom") = .error "boom" :=
  ⟨(c4_transform_error_handling id id emptyRegistry (.str "hello") "boom").2.1 rfl,
   (c4_transform_error_handling id id emptyRegistry (.str "hello") "boom").2.2⟩

/-- Helper: a value that is `undefined` or accepted by `numberValidator` is
absent or a finite number. -/
theorem undef_or_fin_of_check (v : JVal)
    (h : isUndef v = true ∨ numberValidator v = true) :
    v = .undefined ∨ ∃ q, v = .num (.fin q) := by
  rcases h with h | h
  · cases v with
    | undefined => exact Or.inl rfl
    | str s => simp [isUndef] at h
    | num n => simp [isUndef] at h
    | bool b => simp [isUndef] at h
    | null => simp [isUndef] at h
    | arr xs => simp [isUndef] at h
    | obj fs => simp [isUndef] at h
  · cases v with
    | num n =>
      cases n with
      | fin q => exact Or.inr ⟨q, rfl⟩
      | nan => simp [numberValidator] at h
    | undefined => simp [numberValidator] at h
    | str s => simp [numberValidator] at h
    | bool b => simp [numberValidator] at h
    | null => simp [numberValidator] at h
    | arr xs => simp [numberValidator] at h
    | obj fs => simp [numberValidator] at h

/-- Helper: shapes of the three zoom fields of a declaration accepted by the
map schema. -/
theorem validateMap_zoom_fields (m : JVal) (hm : validateMap m = true) :
    (jsGet m "minZoom" = .undefined ∨ ∃ q, jsGet m "minZoom" = .num (.fin q))
    ∧ (jsGet m "maxZoom" = .undefined ∨ ∃ q, jsGet m "maxZoom" = .num (.fin q))
    ∧ (jsGet m "defaultZoom" = .undefined ∨ ∃ q, jsGet m "defaultZoom" = .num (.fin q)) := by
  unfold validateMap schemaValidator mapSchema at hm
  split at hm
  · simp at hm
  · simp only [List.map_cons, List.map_nil, List.all_cons, List.all_nil, id_eq,
      Bool.and_eq_true, Bool.or_eq_true, Bool.and_true] at hm
    obtain ⟨-, -, -, h4, h5, h6, -⟩ := hm
    exact ⟨undef_or_fin_of_check _ (by tauto),
      undef_or_fin_of_check _ (by tauto),
      undef_or_fin_of_check _ (by tauto)⟩

/-- **C5.**  For every validated map declaration, the emitted container's
zoom attributes equal the spec's effective zoom parameters:
`effectiveMin = declared minZoom or 0`,
`effectiveMax = max(declared maxZoom or 2, effectiveMin)`, and
`effectiveDefault = clamp(declared defaultZoom or effectiveMin, effectiveMin,
effectiveMax)`. -/
theorem c5_effective_zoom_parameters (resolve resolveLink : String → String)
    (reg : Registry) (m : JVal) (hm : validateMap m = true) :
    (buildMapData resolve resolveLink reg m).dataset.minZoom
        = .num (.fin (effectiveMin m))
    ∧ (buildMapData resolve resolveLink reg m).dataset.maxZoom
        = .num (.fin (effectiveMax m))
    ∧ (buildMapData resolve resolveLink reg m).dataset.defaultZoom
        = .num (.fin (effectiveDefault m)) := by
  obtain ⟨hmin, hmax, hdef⟩ := validateMap_zoom_fields m hm
  rcases hmin with h1 | ⟨q1, h1⟩ <;> rcases hmax with h2 | ⟨q2, h2⟩ <;>
    rcases hdef with h3 | ⟨q3, h3⟩ <;>
    refine ⟨?_, ?_, ?_⟩ <;>
    simp [buildMapData, numFieldOr, effectiveMin, effectiveMax, effectiveDefault,
      declaredNum, optNumField, jMax, jMin, clamp, Option.getD, h1, h2, h3]

/-- Witness for `c5_effective_zoom_parameters`: the spec's two worked
examples, `{minZoom:0, maxZoom:2, defaultZoom:5}` (default clamped to 2) and
`{maxZoom:1, minZoom:3}` (max floored at min, i.e. 3). -/
theorem c5_witness :
    validateMap (.obj [("image", .str "town.png"), ("minZoom", .num (.fin 0)),
        ("maxZoom", .num (.fin 2)), ("defaultZoom", .num (.fin 5)),
        ("scale", .num (.fin 1))]) = true
    ∧ (buildMapData id id emptyRegistry (.obj [("image", .str "town.png"),
        ("minZoom", .num (.fin 0)), ("maxZoom", .num (.fin 2)),
        ("defaultZoom", .num (.fin 5)), ("scale", .num (.fin 1))])).dataset.minZoom
        = .num (.fin 0)
    ∧ (buildMapData id id emptyRegistry (.obj [("image", .str "town.png"),
        ("minZoom", .num (.fin 0)), ("maxZoom", .num (.fin 2)),
        ("defaultZoom", .num (.fin 5)), ("scale", .num (.fin 1))])).dataset.maxZoom
        = .num (.fin 2)
    ∧ (buildMapData id id emptyRegistry (.obj [("image", .str "town.png"),
        ("minZoom", .num (.fin 0)), ("maxZoom", .num (.fin 2)),
        ("defaultZoom", .num (.fin 5)), ("scale", .num (.fin 1))])).dataset.defaultZoom
        = .num (.fin 2)
    ∧ (buildMapData id id emptyRegistry (.obj [("image", .str "town.png"),
        ("maxZoom", .num (.fin 1)), ("minZoom", .num (.fin 3)),
        ("scale", .num (.fin 1))])).dataset.maxZoom
        = .num (.fin 3) := by
  have h1 := c5_effective_zoom_parameters id id emptyRegistry
    (.obj [("image", .str "town.png"), ("minZoom", .num (.fin 0)),
      ("maxZoom", .num (.fin 2)), ("defaultZoom", .num (.fin 5)),
      ("scale", .num (.fin 1))]) rfl
  have h2 := c5_effective_zoom_parameters id id emptyRegistry
    (.obj [("image", .str "town.png"), ("maxZoom", .num (.fin 1)),
      ("minZoom", .num (.fin 3)), ("scale", .num (.fin 1))]) rfl
  exact ⟨rfl, h1.1.trans (by decide), h1.2.1.trans (by decide),
    h1.2.2.trans (by decide), h2.2.1.trans (by decide)⟩

/-- Helper: after folding insertions, each bucket holds exactly the inserted
markers whose key is that bucket, in insertion order. -/
theorem registryOfEntries_bucket (ms : List MarkerEntry) (k : String) :
    registryOfEntries ms k = ms.filter (fun m => markerKey m = k) := by
  suffices h : ∀ (reg : Registry),
      (ms.foldl insertMarker reg) k = reg k ++ ms.filter (fun m => markerKey m = k) by
    simpa [registryOfEntries, emptyRegistry] using h emptyRegistry
  induction ms with
  | nil => intro reg; simp
  | cons m t ih =>
    intro reg
    simp only [List.foldl_cons, List.filter_cons]
    rw [ih]
    by_cases hk : markerKey m = k
    · simp [insertMarker, hk, List.append_assoc]
    · have : (k = markerKey m) = False := by
        simp [eq_comm]; exact fun h => hk h.symm
      simp [insertMarker, hk, this]

/-- **C6 (amended).**  For every registry state reached by inserting marker
records, and every rendered map: a marker stored without `mapName` — and
likewise one whose `mapName` is falsy (`""`) or is the reserved implicit key
`"notDefinedMap"` itself — lands in the shared bucket and appears in the
rendered marker list of every map; a marker stored with any *other*
`mapName` `X` appears in a map's marker list iff that map's declaration name
is `X`; and the rendered list is exactly the shared bucket followed by the
declared-name bucket (empty when the map has no truthy name). -/
theorem c6_registry_bucket_semantics (ms : List MarkerEntry) (m : MarkerEntry)
    (viewName : Option String) (hmem : m ∈ ms) :
    (m.mapName = none → m ∈ markersFor (registryOfEntries ms) viewName)
    ∧ (markerKey m = "notDefinedMap" → m ∈ markersFor (registryOfEntries ms) viewName)
    ∧ (∀ X, m.mapName = some X → X ≠ "" → X ≠ "notDefinedMap" →
        (m ∈ markersFor (registryOfEntries ms) viewName ↔ viewName = some X))
    ∧ markersFor (registryOfEntries ms) viewName
        = ms.filter (fun x => markerKey x = "notDefinedMap")
          ++ (match viewName with
              | some s => if s.isEmpty then [] else ms.filter (fun x => markerKey x = s)
              | none => []) := by
  have hchar : markersFor (registryOfEntries ms) viewName
      = ms.filter (fun x => markerKey x = "notDefinedMap")
        ++ (match viewName with
            | some s => if s.isEmpty then [] else ms.filter (fun x => markerKey x = s)
            | none => []) := by
    unfold markersFor
    rw [registryOfEntries_bucket]
    cases viewName with
    | none => rfl
    | some s =>
      cases hs : s.isEmpty
      · simp only [Bool.false_eq_true, if_neg, registryOfEntries_bucket]
      · simp [hs]
  refine ⟨?_, ?_, ?_, hchar⟩
  · intro hnone
    rw [hchar]
    have hk : markerKey m = "notDefinedMap" := by simp [markerKey, hnone]
    exact List.mem_append_left _ (List.mem_filter.mpr ⟨hmem, by simp [hk]⟩)
  · intro hkey
    rw [hchar]
    exact List.mem_append_left _ (List.mem_filter.mpr ⟨hmem, by simp [hkey]⟩)
  · intro X hX hne hres
    have hXe : X.isEmpty = false := by
      cases hXe : X.isEmpty
      · rfl
      · exact absurd ((String.isEmpty_iff X).mp hXe) hne
    have hkey : markerKey m = X := by
      simp [markerKey, hX, hXe]
    constructor
    · intro hin
      rw [hchar] at hin
      rcases List.mem_append.mp hin with hin | hin
      · have h2 := (List.mem_filter.mp hin).2
        rw [hkey] at h2
        simp only [decide_eq_true_eq] at h2
        exact absurd h2 hres
      · cases viewName with
        | none => exact absurd (show m ∈ ([] : List MarkerEntry) from hin) (List.not_mem_nil m)
        | some s =>
          have hin2 : m ∈ (if s.isEmpty then ([] : List MarkerEntry)
              else ms.filter (fun x => markerKey x = s)) := hin
          by_cases hs : s = ""
          · subst hs
            rw [if_pos (show "".isEmpty = true from rfl)] at hin2
            exact absurd hin2 (List.not_mem_nil m)
          · have hse : s.isEmpty = false := by
              cases hse : s.isEmpty
              · rfl
              · exact absurd ((String.isEmpty_iff s).mp hse) hs
            rw [if_neg (by simp [hse])] at hin2
            have h2 := (List.mem_filter.mp hin2).2
            rw [hkey] at h2
            simp only [decide_eq_true_eq] at h2
            exact congrArg some h2.symm
    · intro hv
      subst hv
      rw [hchar]
      refine List.mem_append_right _ ?_
      show m ∈ (if X.isEmpty then ([] : List MarkerEntry)
        else ms.filter (fun x => markerKey x = X))
      rw [if_neg (by simp [hXe])]
      exact List.mem_filter.mpr ⟨hmem, by simp [hkey]⟩

/-- Witness for `c6_registry_bucket_semantics`: one shared marker and one
marker targeted at map `"X"`, rendered on a map named `"X"`. -/
theorem c6_witness :
    ({ mapName := some "X", coordinates := "3, 4", name := "B", link := "b" } : MarkerEntry)
      ∈ markersFor
          (registryOfEntries
            [ { coordinates := "1, 2", name := "A", link := "a" },
              { mapName := some "X", coordinates := "3, 4", name := "B", link := "b" } ])
          (some "X")
    ∧ ({ coordinates := "1, 2", name := "A", link := "a" } : MarkerEntry)
      ∈ markersFor
          (registryOfEntries
            [ { coordinates := "1, 2", name := "A", link := "a" },
              { mapName := some "X", coordinates := "3, 4", name := "B", link := "b" } ])
          (some "X") := by
  constructor
  · exact ((c6_registry_bucket_semantics
      [ { coordinates := "1, 2", name := "A", link := "a" },
        { mapName := some "X", coordinates := "3, 4", name := "B", link := "b" } ]
      { mapName := some "X", coordinates := "3, 4", name := "B", link := "b" }
      (some "X") (by decide)).2.2.1 "X" rfl (by decide) (by decide)).mpr rfl
  · exact (c6_registry_bucket_semantics
      [ { coordinates := "1, 2", name := "A", link := "a" },
        { mapName := some "X", coordinates := "3, 4", name := "B", link := "b" } ]
      { coordinates := "1, 2", name := "A", link := "a" }
      (some "X") (by decide)).1 rfl

/-- **C7 (amended).**  For every view that passes validation and carries a
string `mapName` field, the resulting declaration's name equals that view's
`mapName` field (the view's `name` field is ignored), and that name is the
key used to look up the named marker bucket at render: the container's
markers are the shared bucket followed by `registry[X]` (empty for the falsy
name `""`). -/
theorem c7_name_from_mapName (view : JVal) (c : JVal) (X : String)
    (hc : viewCandidate view = some c)
    (hname : jsGet view "mapName" = .str X)
    (resolve resolveLink : String → String) (reg : Registry) :
    jsGet c "name" = .str X
    ∧ (buildMapData resolve resolveLink reg c).markers
        = (reg "notDefinedMap" ++ if X.isEmpty then [] else reg X).map
            (buildMarkerElement resolveLink (numFieldOr c "minZoom" (.fin 0))) := by
  unfold viewCandidate at hc
  split at hc
  · exact absurd hc (by simp)
  · split at hc
    · exact absurd hc (by simp)
    · unfold keepIfValidMap at hc
      split at hc
      · exact absurd hc (by simp)
      · injection hc with hc
        subst hc
        rw [hname]
        exact ⟨rfl, rfl⟩

/-- Witness for `c7_name_from_mapName`: a view with `mapName: "Atlas"` and
its candidate. -/
theorem c7_witness :
    jsGet (.obj
      [ ("name", .str "Atlas"), ("image", .str "town.png"), ("height", .undefined),
        ("minZoom", .undefined), ("maxZoom", .undefined), ("defaultZoom", .undefined),
        ("zoomDelta", .undefined), ("scale", .num (.fin 1)), ("unit", .undefined) ])
      "name" = .str "Atlas"
    ∧ (buildMapData id id emptyRegistry (.obj
        [ ("name", .str "Atlas"), ("image", .str "town.png"), ("height", .undefined),
          ("minZoom", .undefined), ("maxZoom", .undefined), ("defaultZoom", .undefined),
          ("zoomDelta", .undefined), ("scale", .num (.fin 1)), ("unit", .undefined) ])).markers
        = (emptyRegistry "notDefinedMap"
            ++ if "Atlas".isEmpty then [] else emptyRegistry "Atlas").map
            (buildMarkerElement id
              (numFieldOr (.obj
                [ ("name", .str "Atlas"), ("image", .str "town.png"), ("height", .undefined),
                  ("minZoom", .undefined), ("maxZoom", .undefined), ("defaultZoom", .undefined),
                  ("zoomDelta", .undefined), ("scale", .num (.fin 1)), ("unit", .undefined) ])
                "minZoom" (.fin 0))) :=
  c7_name_from_mapName
    (.obj [("type", .str "leaflet-map"), ("image", .str "town.png"),
      ("scale", .num (.fin 1)), ("mapName", .str "Atlas")])
    (.obj
      [ ("name", .str "Atlas"), ("image", .str "town.png"), ("height", .undefined),
        ("minZoom", .undefined), ("maxZoom", .undefined), ("defaultZoom", .undefined),
        ("zoomDelta", .undefined), ("scale", .num (.fin 1)), ("unit", .undefined) ])
    "Atlas" rfl rfl id id emptyRegistry

/-- Helper: the truth table of one field check of the generated schema
validator. -/
theorem field_check_iff (v : JVal) (r : FieldRule) :
    ((isUndef v && !r.required) || r.validator v) = true ↔
      (isUndef v = false ∧ r.validator v = true)
      ∨ (isUndef v = true ∧ r.required = false)
      ∨ (isUndef v = true ∧ r.validator v = true) := by
  cases h1 : isUndef v <;> cases h2 : r.required <;> cases h3 : r.validator v <;> simp

/-- **C9 (amended).**  The generated schema validator accepts exactly the
non-empty records in which every schema-listed field is (a) present and
satisfying its predicate, (b) absent and not required, or (c) absent with its
predicate accepting the absent marker `undefined`; fields not listed in the
schema never cause rejection. -/
theorem c9_schema_validator_characterisation (schema : JSchema) (value : JVal) :
    schemaValidator schema value = true ↔
      (isNonEmptyObject value = true ∧
        ∀ kr ∈ schema,
          (isUndef (jsGet value kr.1) = false ∧ kr.2.validator (jsGet value kr.1) = true)
          ∨ (isUndef (jsGet value kr.1) = true ∧ kr.2.required = false)
          ∨ (isUndef (jsGet value kr.1) = true ∧ kr.2.validator (jsGet value kr.1) = true)) := by
  cases hne : isNonEmptyObject value
  · simp [schemaValidator, hne]
  · simp only [schemaValidator, hne, Bool.not_true, Bool.false_eq_true, if_false,
      List.all_eq_true, List.mem_map, forall_exists_index, and_imp,
      forall_apply_eq_imp_iff₂, id_eq, true_and]
    constructor
    · intro h kr hkr
      exact (field_check_iff _ kr.2).mp (h kr hkr)
    · intro h kr hkr
      exact (field_check_iff _ kr.2).mpr (h kr hkr)

/-- **C10.**  The measure tool steps per the transition table: a map click in
`Ready` or `Measuring` appends the clicked vertex, sets `Measuring`, and —
from the second vertex on — adds the scaled Euclidean length of the new
segment to the cumulative distance; clicking the last vertex's hit target in
`Measuring` sets `Finishing`; the next map click sets `Done` and attaches a
permanent tooltip reading the total distance to one decimal followed by the
unit; a click in `Done` resets to `Ready` with empty path and distance 0; and
deactivating the tool from any state resets it to `Ready` and clears the
path. -/
theorem c10_measure_state_machine (opts : MeasureOptions) (s : MeasureSession)
    (p : LatLng) :
    ((s.state = .Ready ∨ s.state = .Measuring) →
      (mapClicked opts s p).state = .Measuring
      ∧ (mapClicked opts s p).pathItems = s.pathItems ++ [p]
      ∧ (∀ q l, s.pathItems = l ++ [q] →
          (mapClicked opts s p).distance
            = s.distance + jsDistance p q * (opts.scale : ℝ))
      ∧ (s.pathItems = [] → (mapClicked opts s p).distance = s.distance))
    ∧ (s.state = .Measuring → (vertexClicked s).state = .Finishing)
    ∧ (s.state = .Finishing →
        (mapClicked opts s p).state = .Done
        ∧ (mapClicked opts s p).permanentTooltip
            = some (getContent opts.unit s.distance))
    ∧ (s.state = .Done →
        (mapClicked opts s p).state = .Ready
        ∧ (mapClicked opts s p).pathItems = []
        ∧ (mapClicked opts s p).distance = 0)
    ∧ ((onDeselected s).state = .Ready ∧ (onDeselected s).pathItems = []
        ∧ (onDeselected s).distance = 0 ∧ (onDeselected s).pathLine = []) := by
  refine ⟨?_, ?_, ?_, ?_, ⟨rfl, rfl, rfl, rfl⟩⟩
  · intro hs
    have hclick : mapClicked opts s p
        = renderPath opts.scale
            { s with state := .Measuring, pathItems := s.pathItems ++ [p] } := by
      rcases hs with hs | hs <;> · unfold mapClicked; rw [hs]
    refine ⟨by rw [hclick]; rfl, by rw [hclick]; rfl, ?_, ?_⟩
    · intro q l hql
      rw [hclick]
      unfold renderPath
      simp [hql]
    · intro hnil
      rw [hclick]
      unfold renderPath
      simp [hnil]
  · intro _
    rfl
  · intro hs
    constructor <;> · unfold mapClicked; rw [hs]
  · intro hs
    refine ⟨?_, ?_, ?_⟩ <;> (unfold mapClicked; rw [hs]) <;> rfl

/-- Witness for `c10_measure_state_machine`: the spec's measurement scenario —
`Ready`, click `(0,0)`, click `(3,4)` with scale 1 (cumulative distance 5, the
3-4-5 triangle), click the last vertex, click (permanent tooltip `"5.0 ft"`),
click (reset to `Ready`, empty path, distance 0). -/
theorem c10_witness :
    (mapClicked { scale := 1, unit := "ft" } initialSession
        { lat := 0, lng := 0 }).state = .Measuring
    ∧ (mapClicked { scale := 1, unit := "ft" } initialSession
        { lat := 0, lng := 0 }).distance = 0
    ∧ (mapClicked { scale := 1, unit := "ft" }
        (mapClicked { scale := 1, unit := "ft" } initialSession { lat := 0, lng := 0 })
        { lat := 3, lng := 4 }).distance = 5
    ∧ (vertexClicked (mapClicked { scale := 1, unit := "ft" }
        (mapClicked { scale := 1, unit := "ft" } initialSession { lat := 0, lng := 0 })
        { lat := 3, lng := 4 })).state = .Finishing
    ∧ (mapClicked { scale := 1, unit := "ft" }
        (vertexClicked (mapClicked { scale := 1, unit := "ft" }
          (mapClicked { scale := 1, unit := "ft" } initialSession { lat := 0, lng := 0 })
          { lat := 3, lng := 4 }))
        { lat := 7, lng := 7 }).state = .Done
    ∧ (mapClicked { scale := 1, unit := "ft" }
        (vertexClicked (mapClicked { scale := 1, unit := "ft" }
          (mapClicked { scale := 1, unit := "ft" } initialSession { lat := 0, lng := 0 })
          { lat := 3, lng := 4 }))
        { lat := 7, lng := 7 }).permanentTooltip = some "5.0 ft"
    ∧ (mapClicked { scale := 1, unit := "ft" }
        (mapClicked { scale := 1, unit := "ft" }
          (vertexClicked (mapClicked { scale := 1, unit := "ft" }
            (mapClicked { scale := 1, unit := "ft" } initialSession { lat := 0, lng := 0 })
            { lat := 3, lng := 4 }))
          { lat := 7, lng := 7 })
        { lat := 2, lng := 2 }).state = .Ready
    ∧ (mapClicked { scale := 1, unit := "ft" }
        (mapClicked { scale := 1, unit := "ft" }
          (vertexClicked (mapClicked { scale := 1, unit := "ft" }
            (mapClicked { scale := 1, unit := "ft" } initialSession { lat := 0, lng := 0 })
            { lat := 3, lng := 4 }))
          { lat := 7, lng := 7 })
        { lat := 2, lng := 2 }).pathItems = []
    ∧ (mapClicked { scale := 1, unit := "ft" }
        (mapClicked { scale := 1, unit := "ft" }
          (vertexClicked (mapClicked { scale := 1, unit := "ft" }
            (mapClicked { scale := 1, unit := "ft" } initialSession { lat := 0, lng := 0 })
            { lat := 3, lng := 4 }))
          { lat := 7, lng := 7 })
        { lat := 2, lng := 2 }).distance = 0 := by
  have T := c10_measure_state_machine ({ scale := 1, unit := "ft" } : MeasureOptions)
  obtain ⟨h1s, h1p, -, h1d⟩ :=
    (T initialSession { lat := 0, lng := 0 }).1 (Or.inl rfl)
  have h1d0 : (mapClicked { scale := 1, unit := "ft" } initialSession
      { lat := 0, lng := 0 }).distance = 0 := h1d rfl
  obtain ⟨h2s, h2p, h2d, -⟩ :=
    (T (mapClicked { scale := 1, unit := "ft" } initialSession { lat := 0, lng := 0 })
      { lat := 3, lng := 4 }).1 (Or.inr h1s)
  have hsqrt : jsDistance { lat := 3, lng := 4 } { lat := 0, lng := 0 } = 5 := by
    show Real.sqrt ((((3:ℚ) - 0) ^ 2 + ((4:ℚ) - 0) ^ 2 : ℚ) : ℝ) = 5
    rw [show (((3:ℚ) - 0) ^ 2 + ((4:ℚ) - 0) ^ 2 : ℚ) = 25 by norm_num]
    rw [show ((25:ℚ) : ℝ) = (5:ℝ) ^ 2 by norm_num]
    exact Real.sqrt_sq (by norm_num)
  have h2d5 : (mapClicked { scale := 1, unit := "ft" }
      (mapClicked { scale := 1, unit := "ft" } initialSession { lat := 0, lng := 0 })
      { lat := 3, lng := 4 }).distance = 5 := by
    rw [h2d { lat := 0, lng := 0 } [] h1p, h1d0, hsqrt]
    norm_num
  have h3s := (T (mapClicked { scale := 1, unit := "ft" }
      (mapClicked { scale := 1, unit := "ft" } initialSession { lat := 0, lng := 0 })
      { lat := 3, lng := 4 }) { lat := 0, lng := 0 }).2.1 h2s
  obtain ⟨h4s, h4t⟩ :=
    (T (vertexClicked (mapClicked { scale := 1, unit := "ft" }
        (mapClicked { scale := 1, unit := "ft" } initialSession { lat := 0, lng := 0 })
        { lat := 3, lng := 4 }))
      { lat := 7, lng := 7 }).2.2.1 h3s
  have h4t5 : (mapClicked { scale := 1, unit := "ft" }
      (vertexClicked (mapClicked { scale := 1, unit := "ft" }
        (mapClicked { scale := 1, unit := "ft" } initialSession { lat := 0, lng := 0 })
        { lat := 3, lng := 4 }))
      { lat := 7, lng := 7 }).permanentTooltip = some "5.0 ft" := by
    rw [h4t]
    have hd3 : (vertexClicked (mapClicked { scale := 1, unit := "ft" }
        (mapClicked { scale := 1, unit := "ft" } initialSession { lat := 0, lng := 0 })
        { lat := 3, lng := 4 })).distance = 5 := h2d5
    rw [hd3]
    unfold getContent toFixed1
    rw [show ⌊(5:ℝ) * 10 + 1 / 2⌋ = (50:ℤ) by
      rw [Int.floor_eq_iff]
      constructor <;> norm_num]
    rfl
  obtain ⟨h5s, h5p, h5d⟩ :=
    (T (mapClicked { scale := 1, unit := "ft" }
        (vertexClicked (mapClicked { scale := 1, unit := "ft" }
          (mapClicked { scale := 1, unit := "ft" } initialSession { lat := 0, lng := 0 })
          { lat := 3, lng := 4 }))
        { lat := 7, lng := 7 })
      { lat := 2, lng := 2 }).2.2.2.1 h4s
  exact ⟨h1s, h1d0, h2d5, h3s, h4s, h4t5, h5s, h5p, h5d⟩
